import Mathlib

/-!
Verification of the junction-nova-backend polling/extraction core.

The definitions below are a shallow embedding of `src/app.py`:

* String helpers model the exact Python string operations used by the code
  (`str.strip()`, `str.strip("/")`, `str.split("/")`, `str.upper()`,
  `str.startswith(p)`).
* `extractId` embeds the inline Location-header parsing of `flight_search`
  (lines 93-106) and `train_search` (lines 319-334), including Python's
  negative-index semantics: `parts[-k]` raises `IndexError` when the list
  has fewer than `k` elements, which the embedding surfaces as
  `ExtractOut.indexError`.
* `pollAux` embeds the `while True` loops of `poll_for_offers` and
  `poll_for_train_offers`.  The upstream is a response stream
  `resps : Nat → Resp` (the i-th issued request gets `resps i`); a fuel
  argument bounds how many loop iterations are observed, with
  `result = none` meaning the loop is still running after that many
  iterations.  `requests.Response.raise_for_status()` raises exactly for
  statuses in [400, 600), which is what `httpError` captures; for any other
  status it is a no-op and the Python loop continues.
* `flight_search` / `train_search` / `request_cancellation` / `get_places`
  embed the corresponding Flask routes.  JSON parsing is abstracted: a
  payload is carried as its raw body text, and `requests`' json() success
  is approximated by the same brace test the code itself uses; dict
  truthiness of a parsed body (`offers or {"items": []}`) is modelled by
  comparison with the literal two-character object text.
-/

namespace JunctionNova

/-- Characters stripped by Python `str.strip()` (ASCII whitespace). -/
def isPyWS (c : Char) : Bool :=
  c = ' ' || c = '\t' || c = '\n' || c = '\r' || c = '\x0b' || c = '\x0c'

/-- Remove characters satisfying `p` from both ends of a string. -/
def stripEnds (p : Char → Bool) (s : String) : String :=
  String.mk (((s.data.dropWhile p).reverse.dropWhile p).reverse)

/-- Python `s.strip()`. -/
def pyStripWS (s : String) : String := stripEnds isPyWS s

/-- Python `s.strip("/")`. -/
def pyStripSlash (s : String) : String := stripEnds (fun c => c = '/') s

/-- Python `s.upper()` (ASCII). -/
def pyUpper (s : String) : String := String.mk (s.data.map Char.toUpper)

/-- Does the second list start with the first one? -/
def listPrefixEq : List Char → List Char → Bool
  | [], _ => true
  | _ :: _, [] => false
  | a :: as, b :: bs => a = b && listPrefixEq as bs

/-- Python `s.startswith(p)`. -/
def pyStartsWith (s p : String) : Bool := listPrefixEq p.data s.data

/-- Helper for `splitSlash`: accumulates the current segment (reversed). -/
def splitSlashAux : List Char → List Char → List String
  | [], acc => [String.mk acc.reverse]
  | c :: rest, acc =>
    if c = '/' then String.mk acc.reverse :: splitSlashAux rest []
    else splitSlashAux rest (c :: acc)

/-- Python `s.split("/")`: always non-empty, `"".split("/") == [""]`. -/
def splitSlash (s : String) : List String := splitSlashAux s.data []

/-- Python `xs[-k]` for `k ≥ 1`: `some` the element, `none` when the list is
too short (Python raises `IndexError` there). -/
def negGet (xs : List String) (k : Nat) : Option String := xs.reverse[k - 1]?

/-- Statuses for which `requests` raises `HTTPError` from `raise_for_status()`
(equivalently `response.ok` is `False`): 4xx and 5xx. -/
def httpError (st : Nat) : Bool := decide (400 ≤ st) && decide (st < 600)

/-- The code's own JSON-object sniff: trimmed body starts with a left brace
and ends with a right brace (`text.startswith("{") and text.endswith("}")`
after `text = resp.text.strip()`). -/
def looksJsonObject (s : String) : Bool :=
  let t := (pyStripWS s).data
  t.head? = some '\x7b' && t.getLast? = some '\x7d'

/-- Outcome of the Location-header extraction code: either a normal result
(`some handle` / `none` for "no handle") or a raised `IndexError`. -/
inductive ExtractOut where
  | ok : Option String → ExtractOut
  | indexError : ExtractOut
deriving DecidableEq, Repr

/-- The `elif len(parts) >= 1 and parts[-2] == kind:` branch (and the
fall-through where `match` stays `None`). -/
def elifPart (kind pre : String) (parts : List String) : ExtractOut :=
  if 1 ≤ parts.length then
    match negGet parts 2 with
    | none => .indexError
    | some p2 =>
      if p2 = kind then
        match negGet parts 1 with
        | none => .indexError
        | some cand => .ok (if pyStartsWith cand pre then some cand else none)
      else .ok none
  else .ok none

/-- The full `if/elif` chain over the split segments, with Python's
short-circuit evaluation order: `len(parts) >= 2 and parts[-1] == "offers"
and parts[-3] == kind` evaluates `parts[-3]` (possible `IndexError`) only
after the first two conjuncts hold. -/
def extractFrom (kind pre : String) (parts : List String) : ExtractOut :=
  if 2 ≤ parts.length then
    match negGet parts 1 with
    | none => .indexError
    | some lastSeg =>
      if lastSeg = "offers" then
        match negGet parts 3 with
        | none => .indexError
        | some p3 =>
          if p3 = kind then
            match negGet parts 2 with
            | none => .indexError
            | some cand =>
              .ok (if pyStartsWith cand pre then some cand else none)
          else elifPart kind pre parts
      else elifPart kind pre parts
  else elifPart kind pre parts

/-- The Location-header extraction from `flight_search` / `train_search`:
`if loc:` then strip slashes, split on `/`, and run the `if/elif` chain. -/
def extractId (kind pre loc : String) : ExtractOut :=
  if loc = "" then .ok none
  else extractFrom kind pre (splitSlash (pyStripSlash loc))

/-- One upstream poll response: HTTP status and body text. -/
structure Resp where
  status : Nat
  body : String
deriving DecidableEq, Repr

/-- Result of one poll loop, when it returns: `ready` carries the body text
whose JSON parse the Python code returns; `empty` is the `return None` path;
`failed` is the `HTTPError` raised by `raise_for_status()` on a 4xx/5xx. -/
inductive PollResult where
  | ready : String → PollResult
  | empty : PollResult
  | failed : Nat → String → PollResult
deriving DecidableEq, Repr

/-- Observation of a poll loop run: `result = none` means the loop had not
returned after the observed iterations; `requests` counts issued status
requests; `sleeps` counts executed `time.sleep(POLL_INTERVAL)` calls. -/
structure PollRun where
  result : Option PollResult
  requests : Nat
  sleeps : Nat
deriving DecidableEq, Repr

/-- `MAX_POLL_ATTEMPTS` default from the code. -/
def MAX_POLL_ATTEMPTS : Nat := 12

/-- The `while True` body shared verbatim by `poll_for_offers` and
`poll_for_train_offers`.  `reqs` requests were already issued, `sleeps`
sleeps already executed; the loop increments `attempts`, issues request
number `reqs` of the stream, and dispatches on the status:

* 200: brace-shaped trimmed body ⇒ return parsed body; else return `None`;
* 202 with `attempts < maxA`: sleep and retry;
* otherwise `resp.raise_for_status()`: raises (returns `failed`) only for
  4xx/5xx; for every other status it is a no-op and the loop continues
  without sleeping. -/
def pollAux (maxA : Nat) (resps : Nat → Resp) : Nat → Nat → Nat → PollRun
  | 0, reqs, sleeps => ⟨none, reqs, sleeps⟩
  | fuel + 1, reqs, sleeps =>
    let r := resps reqs
    let attempt := reqs + 1
    if r.status = 200 then
      if looksJsonObject r.body then ⟨some (.ready r.body), attempt, sleeps⟩
      else ⟨some .empty, attempt, sleeps⟩
    else if r.status = 202 ∧ attempt < maxA then
      pollAux maxA resps fuel attempt (sleeps + 1)
    else if httpError r.status then ⟨some (.failed r.status r.body), attempt, sleeps⟩
    else pollAux maxA resps fuel attempt sleeps

/-- `poll_for_offers` observed for `fuel` loop iterations. -/
def poll_for_offers (resps : Nat → Resp) (fuel : Nat) : PollRun :=
  pollAux MAX_POLL_ATTEMPTS resps fuel 0 0

/-- `poll_for_train_offers` observed for `fuel` loop iterations (the loop
body is identical to the flight one). -/
def poll_for_train_offers (resps : Nat → Resp) (fuel : Nat) : PollRun :=
  pollAux MAX_POLL_ATTEMPTS resps fuel 0 0

/-- The `jsonify({"items": []})` body. -/
def emptyItems : String := "\x7b\"items\": []\x7d"

/-- `jsonify(offers or {"items": []})` when the poll returned a parsed body:
the parsed dict is falsy exactly when it is the empty object (modelled as the
two-character object text after trimming). -/
def jsonifyOr (s : String) : String :=
  if pyStripWS s = "\x7b\x7d" then emptyItems else s

/-- Message of the `requests.exceptions.HTTPError` raised for an error
status during polling. -/
def httpErrorMsg (st : Nat) (b : String) : String :=
  "HTTPError " ++ toString st ++ ": " ++ b

/-- Response to the search-creation POST: status, body text, and the
`Location` header (`""` when absent). -/
structure CreateResp where
  status : Nat
  body : String
  location : String
deriving DecidableEq, Repr

/-- What a route handler produces, as seen at the HTTP boundary:

* `ok body` — 200 with a JSON body (carried as text);
* `errorResp st body` — `abort(st, body)` style error response;
* `errorJson st msg details` — explicit `(jsonify({"error": msg,
  "details": details}), st)` return;
* `relayed st body` — upstream JSON body relayed verbatim with status `st`;
* `crash msg` — an exception escaped the handler (Flask answers 500);
* `diverge` — the handler had not returned within the observed fuel. -/
inductive RouteResult where
  | ok : String → RouteResult
  | errorResp : Nat → String → RouteResult
  | errorJson : Nat → String → String → RouteResult
  | relayed : Nat → String → RouteResult
  | crash : String → RouteResult
  | diverge : RouteResult
deriving DecidableEq, Repr

/-- A route run: result plus how many upstream calls were made
(creation POSTs and poll GETs separately). -/
structure RouteRun where
  result : RouteResult
  createCalls : Nat
  pollRequests : Nat
deriving DecidableEq, Repr

/-- The `/flight-search` route.  `hasBody` is the truthiness of
`request.get_json()` (absent and empty bodies are both falsy); `create` is
the upstream creation response; `resps` the poll-response stream; `fuel`
bounds the observed poll iterations.  Note the poll call sits outside any
`try`, so a `failed` poll raises an uncaught `HTTPError`. -/
def flight_search (hasBody : Bool) (create : CreateResp) (resps : Nat → Resp)
    (fuel : Nat) : RouteRun :=
  if !hasBody then ⟨.errorResp 400 "Invalid JSON", 0, 0⟩
  else if httpError create.status then
    ⟨.errorResp create.status ("Search creation failed: " ++ create.body), 1, 0⟩
  else
    match extractId "flight-searches" "flight_search_" create.location with
    | .indexError => ⟨.crash "IndexError: list index out of range", 1, 0⟩
    | .ok none =>
      ⟨.errorResp 500
        ("Could not reliably extract flight_search_id from Location header. Received: "
          ++ create.location), 1, 0⟩
    | .ok (some _) =>
      let run := poll_for_offers resps fuel
      match run.result with
      | none => ⟨.diverge, 1, run.requests⟩
      | some (.ready s) => ⟨.ok (jsonifyOr s), 1, run.requests⟩
      | some .empty => ⟨.ok emptyItems, 1, run.requests⟩
      | some (.failed st b) => ⟨.crash (httpErrorMsg st b), 1, run.requests⟩

/-- The `/train-search` route.  Everything after the body check runs inside
`try`: creation `raise_for_status()` errors and poll `HTTPError`s are caught
and relayed (JSON body verbatim when the body parses, else a generic
`Upstream API error` with details); any other exception (e.g. the
extraction `IndexError`) becomes `abort(500, str(e))`. -/
def train_search (hasBody : Bool) (create : CreateResp) (resps : Nat → Resp)
    (fuel : Nat) : RouteRun :=
  if !hasBody then ⟨.errorResp 400 "Invalid JSON", 0, 0⟩
  else if httpError create.status then
    (if looksJsonObject create.body then ⟨.relayed create.status create.body, 1, 0⟩
     else ⟨.errorJson create.status "Upstream API error" create.body, 1, 0⟩)
  else
    match extractId "train-searches" "train_search_" create.location with
    | .indexError => ⟨.errorResp 500 "IndexError: list index out of range", 1, 0⟩
    | .ok none =>
      ⟨.errorResp 500
        ("Could not reliably extract train_search_id from Location header. Received: "
          ++ create.location), 1, 0⟩
    | .ok (some _) =>
      let run := poll_for_train_offers resps fuel
      match run.result with
      | none => ⟨.diverge, 1, run.requests⟩
      | some (.ready s) => ⟨.ok (jsonifyOr s), 1, run.requests⟩
      | some .empty => ⟨.ok emptyItems, 1, run.requests⟩
      | some (.failed st b) =>
        (if looksJsonObject b then ⟨.relayed st b, 1, run.requests⟩
         else ⟨.errorJson st "Upstream API error" b, 1, run.requests⟩)

/-- Transport-level outcome of the cancellation POST: an HTTP response, a
`requests.exceptions.Timeout`, or another `RequestException` with message. -/
inductive NetOutcome where
  | resp : Resp → NetOutcome
  | timeout : NetOutcome
  | netError : String → NetOutcome
deriving DecidableEq, Repr

/-- Target URL of the cancellation POST. -/
def cancellationUrl : String :=
  "https://content-api.sandbox.junction.dev/cancellations/request"

/-- The `/cancellations/request` route.  `payloadOk` is `True` when the JSON
body is truthy and contains `bookingId`.  `except Timeout` is matched before
`except RequestException`, so a timeout always yields 504 and every other
transport error 503, each with an error/details JSON body. -/
def request_cancellation (payloadOk : Bool) (net : NetOutcome) : RouteResult :=
  if !payloadOk then .errorResp 400 "Invalid JSON or missing bookingId"
  else
    match net with
    | .resp r =>
      if httpError r.status then
        (if looksJsonObject r.body then .relayed r.status r.body
         else .errorJson r.status "Cancellation request failed" r.body)
      else
        (if looksJsonObject r.body then .relayed r.status r.body
         else .errorJson 500 "An unexpected error occurred" r.body)
    | .timeout =>
      .errorJson 504 "Cancellation request timed out"
        ("Timeout after 15 seconds for " ++ cancellationUrl)
    | .netError m => .errorJson 503 "Network error during cancellation request" m

/-- Upstream places response, with the parsed `items` list abstracted as a
list of opaque item texts. -/
structure PlacesResp where
  status : Nat
  items : List String
deriving DecidableEq, Repr

/-- Observable behaviour of `/places`: number of upstream calls, the `iata`
value forwarded upstream (when called), the HTTP status answered to the
client, and the `items` list of the response body. -/
structure PlacesOut where
  calls : Nat
  sent : Option String
  status : Nat
  items : List String
deriving DecidableEq, Repr

/-- The `/places` route: trim and uppercase the `iata` query parameter,
short-circuit unless its length is exactly 3, then call upstream; `not
resp.ok` (status in [400, 600)) answers `{"items": []}` with the upstream
status, otherwise the upstream items with status 200. -/
def get_places (iataRaw : String) (up : PlacesResp) : PlacesOut :=
  let iata := pyUpper (pyStripWS iataRaw)
  if iata.length ≠ 3 then ⟨0, none, 200, []⟩
  else if httpError up.status then ⟨1, some iata, up.status, []⟩
  else ⟨1, some iata, 200, up.items⟩

/-! Helper lemmas about Python negative indexing on lists ending in two or
three known segments. -/

lemma negGet_app3_one (ss : List String) (a b c : String) :
    negGet (ss ++ [a, b, c]) 1 = some c := by
  have h : (ss ++ [a, b, c]).reverse = c :: b :: a :: ss.reverse := by simp
  rw [negGet, h]
  simp

lemma negGet_app3_two (ss : List String) (a b c : String) :
    negGet (ss ++ [a, b, c]) 2 = some b := by
  have h : (ss ++ [a, b, c]).reverse = c :: b :: a :: ss.reverse := by simp
  rw [negGet, h]
  simp

lemma negGet_app3_three (ss : List String) (a b c : String) :
    negGet (ss ++ [a, b, c]) 3 = some a := by
  have h : (ss ++ [a, b, c]).reverse = c :: b :: a :: ss.reverse := by simp
  rw [negGet, h]
  simp

lemma negGet_app2_one (ss : List String) (a b : String) :
    negGet (ss ++ [a, b]) 1 = some b := by
  have h : (ss ++ [a, b]).reverse = b :: a :: ss.reverse := by simp
  rw [negGet, h]
  simp

lemma negGet_app2_two (ss : List String) (a b : String) :
    negGet (ss ++ [a, b]) 2 = some a := by
  have h : (ss ++ [a, b]).reverse = b :: a :: ss.reverse := by simp
  rw [negGet, h]
  simp

lemma len_app3_two (ss : List String) (a b c : String) :
    2 ≤ (ss ++ [a, b, c]).length := by
  simp only [List.length_append, List.length_cons, List.length_nil]
  omega

lemma len_app3_one (ss : List String) (a b c : String) :
    1 ≤ (ss ++ [a, b, c]).length := by
  simp only [List.length_append, List.length_cons, List.length_nil]
  omega

lemma len_app2_two (ss : List String) (a b : String) :
    2 ≤ (ss ++ [a, b]).length := by
  simp only [List.length_append, List.length_cons, List.length_nil]
  omega

lemma len_app2_one (ss : List String) (a b : String) :
    1 ≤ (ss ++ [a, b]).length := by
  simp only [List.length_append, List.length_cons, List.length_nil]
  omega

/-- Offers shape with the right resource-kind token: the candidate is the
second-to-last segment and is kept iff it starts with the id token. -/
lemma extractFrom_offers (kind pre : String) (ss : List String) (idv : String) :
    extractFrom kind pre (ss ++ [kind, idv, "offers"]) =
      .ok (if pyStartsWith idv pre then some idv else none) := by
  have h1 := negGet_app3_one ss kind idv "offers"
  have h2 := negGet_app3_two ss kind idv "offers"
  have h3 := negGet_app3_three ss kind idv "offers"
  have hl := len_app3_two ss kind idv "offers"
  simp [extractFrom, h1, h2, h3, hl]

/-- Offers shape with a wrong resource-kind token never yields a handle
(given that the literal `offers` does not carry the id token, which holds
for both domains). -/
lemma extractFrom_offers_wrongkind (kind pre k : String) (ss : List String)
    (idv : String) (hk : ¬ k = kind) (hOff : pyStartsWith "offers" pre = false) :
    extractFrom kind pre (ss ++ [k, idv, "offers"]) = .ok none := by
  have h1 := negGet_app3_one ss k idv "offers"
  have h2 := negGet_app3_two ss k idv "offers"
  have h3 := negGet_app3_three ss k idv "offers"
  have hl2 := len_app3_two ss k idv "offers"
  have hl1 := len_app3_one ss k idv "offers"
  by_cases hik : idv = kind
  · subst hik
    simp [extractFrom, elifPart, h1, h2, h3, hk, hl2, hl1, hOff]
  · simp [extractFrom, elifPart, h1, h2, h3, hk, hik, hl2, hl1]

/-- Direct shape with the right resource-kind token, for a candidate other
than the literal `offers`. -/
lemma extractFrom_direct (kind pre : String) (ss : List String) (idv : String)
    (hid : ¬ idv = "offers") :
    extractFrom kind pre (ss ++ [kind, idv]) =
      .ok (if pyStartsWith idv pre then some idv else none) := by
  have h1 := negGet_app2_one ss kind idv
  have h2 := negGet_app2_two ss kind idv
  have hl2 := len_app2_two ss kind idv
  have hl1 := len_app2_one ss kind idv
  simp [extractFrom, elifPart, h1, h2, hid, hl2, hl1]

/-- Direct shape with a wrong resource-kind token never yields a handle, for
a candidate other than the literal `offers`. -/
lemma extractFrom_direct_wrongkind (kind pre k : String) (ss : List String)
    (idv : String) (hk : ¬ k = kind) (hid : ¬ idv = "offers") :
    extractFrom kind pre (ss ++ [k, idv]) = .ok none := by
  have h1 := negGet_app2_one ss k idv
  have h2 := negGet_app2_two ss k idv
  have hl2 := len_app2_two ss k idv
  have hl1 := len_app2_one ss k idv
  simp [extractFrom, elifPart, h1, h2, hk, hid, hl2, hl1]

/-- A non-degenerate split (at least two segments) comes from a non-empty
location string, so `extractId` defers to `extractFrom` on the segments. -/
lemma extractId_split (kind pre s : String) (parts : List String)
    (h : splitSlash (pyStripSlash s) = parts) (hlen : 2 ≤ parts.length) :
    extractId kind pre s = extractFrom kind pre parts := by
  have hs : ¬ s = "" := by
    intro he
    rw [he, show splitSlash (pyStripSlash "") = [""] from by decide] at h
    rw [← h] at hlen
    exact absurd hlen (by decide)
  unfold extractId
  rw [if_neg hs, h]

/-! Claim theorems. -/

/-- Claim C1 (refuted, code bug): the claim says each poller issues at most
`MAX_POLL_ATTEMPTS` (12) status requests before returning, sleeping only
between attempts answered 202.  Evaluating the embedded poll loops on an
upstream that answers 202 to every request shows the loop has not returned
after 13 iterations and has issued 13 requests — the 202 received on attempt
12 falls to `raise_for_status()`, which is a no-op for 202, so the `while
True` loop keeps going (with 11 sleeps, and none after attempt 11). -/
theorem c1_poll_exceeds_max_attempts :
    poll_for_offers (fun _ => ⟨202, "x"⟩) 13 = ⟨none, 13, 11⟩
    ∧ poll_for_train_offers (fun _ => ⟨202, "x"⟩) 13 = ⟨none, 13, 11⟩ :=
  ⟨by decide, by decide⟩

/-- Claim C2 (refuted, code bug): the claim says a non-200/202 status, or a
202 with the budget exhausted, makes the poller return `Failed`.  Evaluating
the embedded loops: (a) an all-202 upstream leaves both pollers still
looping after 20 iterations — exhaustion never produces `Failed`; (b) a
first response of 204 (non-200/202 but below 400) does not produce
`Failed(204)` either: `raise_for_status()` is a no-op and the loop issues a
second request, here answered 200. -/
theorem c2_poll_not_failed_on_exhaustion :
    poll_for_offers (fun _ => ⟨202, "pending"⟩) 20 = ⟨none, 20, 11⟩
    ∧ poll_for_train_offers (fun _ => ⟨202, "pending"⟩) 20 = ⟨none, 20, 11⟩
    ∧ poll_for_offers (fun i => if i = 0 then ⟨204, "no content"⟩ else ⟨200, "\x7b\x7d"⟩) 5
        = ⟨some (.ready "\x7b\x7d"), 2, 0⟩ :=
  ⟨by decide, by decide, by decide⟩

/-- Claim C3 (counterexample): the claim says a poll failure on the flight
path degrades to the items-empty response with success status.  Concretely,
when creation succeeds and the first poll response is a 404, the handler
ends in an uncaught `HTTPError` (a hard 500 to the caller), not in the
items-empty success response. -/
theorem c3_flight_poll_failure_cex :
    (flight_search true ⟨201, "", "/flight-searches/flight_search_1/offers"⟩
        (fun _ => ⟨404, "nf"⟩) 3).result = RouteResult.crash (httpErrorMsg 404 "nf")
    ∧ (flight_search true ⟨201, "", "/flight-searches/flight_search_1/offers"⟩
        (fun _ => ⟨404, "nf"⟩) 3).result ≠ RouteResult.ok emptyItems :=
  ⟨by decide, by decide⟩

/-- Claim C3 (amended): on the flight path a poll `Empty` degrades to the
items-empty success response, but a poll `Failed` (HTTP 4xx/5xx during
polling) escapes as an uncaught `HTTPError` — a hard error to the caller —
and 202-exhaustion never produces a timeout result at all (the loop keeps
polling, see C1/C2). -/
theorem c3_flight_poll_failure_amended (create : CreateResp) (resps : Nat → Resp)
    (fuel : Nat) (idv : String)
    (hok : httpError create.status = false)
    (hx : extractId "flight-searches" "flight_search_" create.location
            = .ok (some idv)) :
    ((poll_for_offers resps fuel).result = some PollResult.empty →
        flight_search true create resps fuel =
          ⟨.ok emptyItems, 1, (poll_for_offers resps fuel).requests⟩)
    ∧ (∀ st b, (poll_for_offers resps fuel).result = some (PollResult.failed st b) →
        flight_search true create resps fuel =
          ⟨.crash (httpErrorMsg st b), 1, (poll_for_offers resps fuel).requests⟩) := by
  constructor
  · intro hp
    simp [flight_search, hok, hx, hp]
  · intro st b hp
    simp [flight_search, hok, hx, hp]

/-- Claim C3 witness: a concrete run through the amended theorem — creation
succeeds, the poll answers 200 with an empty body (`Empty`), and the route
returns the items-empty success response. -/
theorem c3_flight_poll_failure_witness :
    flight_search true ⟨201, "", "/flight-searches/flight_search_7/offers"⟩
        (fun _ => ⟨200, ""⟩) 3 = ⟨.ok emptyItems, 1, 1⟩ :=
  (c3_flight_poll_failure_amended ⟨201, "", "/flight-searches/flight_search_7/offers"⟩
      (fun _ => ⟨200, ""⟩) 3 "flight_search_7" (by decide) (by decide)).1 (by decide)

/-- Claim C4 (refuted, code bug): the claim says the extractor is total and
fails closed on every input.  In fact a single-segment path (`"abc"`) and a
two-segment path ending in `offers` (`"x/offers"`) make the code evaluate
`parts[-2]` resp. `parts[-3]` on a too-short list, raising `IndexError`
instead of producing no handle — the `len(parts) >= 1` / `>= 2` guards are
each one too small.  This holds for both domain variants. -/
theorem c4_extractor_index_error :
    extractId "flight-searches" "flight_search_" "abc" = .indexError
    ∧ extractId "train-searches" "train_search_" "abc" = .indexError
    ∧ extractId "flight-searches" "flight_search_" "x/offers" = .indexError :=
  ⟨by decide, by decide, by decide⟩

/-- Claim C5 (counterexample): the claim says a candidate segment without
the id token yields no handle; but on `"flight-searches/offers"` (candidate
`offers`, which lacks the token) the extractor raises `IndexError` instead
of returning no handle. -/
theorem c5_extractor_shapes_cex :
    extractId "flight-searches" "flight_search_" "flight-searches/offers"
        ≠ ExtractOut.ok none
    ∧ extractId "flight-searches" "flight_search_" "flight-searches/offers"
        = ExtractOut.indexError :=
  ⟨by decide, by decide⟩

/-- Claim C5 (amended): for every location string splitting (after slash
stripping) into the offers shape `… / kind / id / offers` or the direct
shape `… / kind / id`, the extractor returns `id` exactly when `id` starts
with the domain id token, and returns no handle otherwise; with a wrong
resource-kind token it returns no handle.  For the direct shape the
no-handle clauses require the candidate to differ from the literal
`offers`: a candidate equal to `offers` is instead treated by the
offers-shape branch (and on a two-segment path raises the C4 index
error). -/
theorem c5_extractor_shapes (ss : List String) (idv s : String) :
    ((splitSlash (pyStripSlash s) = ss ++ ["flight-searches", idv, "offers"]) →
        extractId "flight-searches" "flight_search_" s =
          .ok (if pyStartsWith idv "flight_search_" then some idv else none))
    ∧ ((splitSlash (pyStripSlash s) = ss ++ ["flight-searches", idv]) →
        ((pyStartsWith idv "flight_search_" = true →
            extractId "flight-searches" "flight_search_" s = .ok (some idv))
          ∧ (idv ≠ "offers" →
              extractId "flight-searches" "flight_search_" s =
                .ok (if pyStartsWith idv "flight_search_" then some idv else none))))
    ∧ ((splitSlash (pyStripSlash s) = ss ++ ["train-searches", idv, "offers"]) →
        extractId "train-searches" "train_search_" s =
          .ok (if pyStartsWith idv "train_search_" then some idv else none))
    ∧ ((splitSlash (pyStripSlash s) = ss ++ ["train-searches", idv]) →
        ((pyStartsWith idv "train_search_" = true →
            extractId "train-searches" "train_search_" s = .ok (some idv))
          ∧ (idv ≠ "offers" →
              extractId "train-searches" "train_search_" s =
                .ok (if pyStartsWith idv "train_search_" then some idv else none))))
    ∧ (∀ k, k ≠ "flight-searches" →
        (splitSlash (pyStripSlash s) = ss ++ [k, idv, "offers"]) →
        extractId "flight-searches" "flight_search_" s = .ok none)
    ∧ (∀ k, k ≠ "flight-searches" → idv ≠ "offers" →
        (splitSlash (pyStripSlash s) = ss ++ [k, idv]) →
        extractId "flight-searches" "flight_search_" s = .ok none)
    ∧ (∀ k, k ≠ "train-searches" →
        (splitSlash (pyStripSlash s) = ss ++ [k, idv, "offers"]) →
        extractId "train-searches" "train_search_" s = .ok none)
    ∧ (∀ k, k ≠ "train-searches" → idv ≠ "offers" →
        (splitSlash (pyStripSlash s) = ss ++ [k, idv]) →
        extractId "train-searches" "train_search_" s = .ok none) := by
  refine ⟨?_, ?_, ?_, ?_, ?_, ?_, ?_, ?_⟩
  · intro h
    rw [extractId_split _ _ s _ h (len_app3_two ss _ _ _)]
    exact extractFrom_offers _ _ ss idv
  · intro h
    constructor
    · intro hst
      have hno : idv ≠ "offers" := by
        intro he
        rw [he] at hst
        exact absurd hst (by decide)
      rw [extractId_split _ _ s _ h (len_app2_two ss _ _),
        extractFrom_direct _ _ ss idv hno, hst]
      simp
    · intro hno
      rw [extractId_split _ _ s _ h (len_app2_two ss _ _)]
      exact extractFrom_direct _ _ ss idv hno
  · intro h
    rw [extractId_split _ _ s _ h (len_app3_two ss _ _ _)]
    exact extractFrom_offers _ _ ss idv
  · intro h
    constructor
    · intro hst
      have hno : idv ≠ "offers" := by
        intro he
        rw [he] at hst
        exact absurd hst (by decide)
      rw [extractId_split _ _ s _ h (len_app2_two ss _ _),
        extractFrom_direct _ _ ss idv hno, hst]
      simp
    · intro hno
      rw [extractId_split _ _ s _ h (len_app2_two ss _ _)]
      exact extractFrom_direct _ _ ss idv hno
  · intro k hk h
    rw [extractId_split _ _ s _ h (len_app3_two ss _ _ _)]
    exact extractFrom_offers_wrongkind _ _ k ss idv hk (by decide)
  · intro k hk hno h
    rw [extractId_split _ _ s _ h (len_app2_two ss _ _)]
    exact extractFrom_direct_wrongkind _ _ k ss idv hk hno
  · intro k hk h
    rw [extractId_split _ _ s _ h (len_app3_two ss _ _ _)]
    exact extractFrom_offers_wrongkind _ _ k ss idv hk (by decide)
  · intro k hk hno h
    rw [extractId_split _ _ s _ h (len_app2_two ss _ _)]
    exact extractFrom_direct_wrongkind _ _ k ss idv hk hno

/-- Claim C5 witness: the amended theorem applied to concrete locations —
an offers-shape flight path and a direct-shape train path both yield their
handles. -/
theorem c5_extractor_shapes_witness :
    extractId "flight-searches" "flight_search_"
        "v1/flight-searches/flight_search_ABC/offers"
      = ExtractOut.ok (some "flight_search_ABC")
    ∧ extractId "train-searches" "train_search_" "/train-searches/train_search_9"
      = ExtractOut.ok (some "train_search_9") := by
  constructor
  · have h := (c5_extractor_shapes ["v1"] "flight_search_ABC"
      "v1/flight-searches/flight_search_ABC/offers").1 (by decide)
    rw [h]
    decide
  · exact ((c5_extractor_shapes [] "train_search_9"
      "/train-searches/train_search_9").2.2.2.1 (by decide)).1 (by decide)

/-- Claim C6 (confirmed): at any loop state, a 200 response makes the poll
loop return the parsed body (`Ready`) exactly when the trimmed body starts
with a left brace and ends with a right brace, and `Empty` otherwise; the
same instantiates to both named pollers on their first attempt. -/
theorem c6_poll_200_ready_or_empty (resps : Nat → Resp)
    (maxA reqs sleeps fuel : Nat) (h : (resps reqs).status = 200) :
    (pollAux maxA resps (fuel + 1) reqs sleeps =
      if looksJsonObject (resps reqs).body
      then ⟨some (PollResult.ready (resps reqs).body), reqs + 1, sleeps⟩
      else ⟨some PollResult.empty, reqs + 1, sleeps⟩)
    ∧ ((resps 0).status = 200 →
        (poll_for_offers resps (fuel + 1) =
          if looksJsonObject (resps 0).body
          then ⟨some (PollResult.ready (resps 0).body), 1, 0⟩
          else ⟨some PollResult.empty, 1, 0⟩)
        ∧ (poll_for_train_offers resps (fuel + 1) =
          if looksJsonObject (resps 0).body
          then ⟨some (PollResult.ready (resps 0).body), 1, 0⟩
          else ⟨some PollResult.empty, 1, 0⟩)) := by
  constructor
  · simp [pollAux, h]
  · intro h0
    constructor
    · simp [poll_for_offers, pollAux, h0]
    · simp [poll_for_train_offers, pollAux, h0]

/-- Claim C6 witness: the theorem applied to an upstream whose first
response is 200 with an empty body — the poller returns `Empty`. -/
theorem c6_poll_200_witness :
    poll_for_offers (fun _ => ⟨200, ""⟩) 4 = ⟨some PollResult.empty, 1, 0⟩ := by
  have h := ((c6_poll_200_ready_or_empty (fun _ => ⟨200, ""⟩) 12 0 0 3
    (by decide)).2 (by decide)).1
  exact h.trans (by decide)

/-- Claim C7 (confirmed): a successful creation (201) with Location header
`/train-searches/train_search_42/offers` followed by a 200 poll response
whose body is the JSON object with one item makes the train route return
exactly that body, after one creation call and one poll request. -/
theorem c7_train_end_to_end :
    train_search true ⟨201, "", "/train-searches/train_search_42/offers"⟩
        (fun _ => ⟨200, "\x7b\"items\":[\x7b\"id\":\"o1\"\x7d]\x7d"⟩) 3 =
      ⟨.ok "\x7b\"items\":[\x7b\"id\":\"o1\"\x7d]\x7d", 1, 1⟩ := by
  decide

/-- Claim C8 (confirmed): with a falsy JSON body (absent or empty), both
orchestrators answer the 400 `Invalid JSON` error having made zero upstream
calls (no creation POST, no poll GET), whatever the upstream would have
answered. -/
theorem c8_missing_body_bad_request (create : CreateResp) (resps : Nat → Resp)
    (fuel : Nat) :
    flight_search false create resps fuel = ⟨.errorResp 400 "Invalid JSON", 0, 0⟩
    ∧ train_search false create resps fuel = ⟨.errorResp 400 "Invalid JSON", 0, 0⟩ :=
  ⟨rfl, rfl⟩

/-- Claim C9 (confirmed): on the cancellation route with a valid payload, an
upstream timeout yields 504 and any other transport-level error yields 503,
each with an error-message/details JSON body, and the two statuses are
distinct for every such failure. -/
theorem c9_cancellation_status_distinction (m : String) :
    request_cancellation true NetOutcome.timeout =
      RouteResult.errorJson 504 "Cancellation request timed out"
        ("Timeout after 15 seconds for " ++ cancellationUrl)
    ∧ request_cancellation true (NetOutcome.netError m) =
      RouteResult.errorJson 503 "Network error during cancellation request" m
    ∧ (504 : Nat) ≠ 503 :=
  ⟨rfl, rfl, by decide⟩

/-- Claim C10 (counterexample): the claim says every upstream non-2xx status
is relayed with an items-empty body.  For upstream status 304 (non-2xx but
below 400, so `resp.ok` is true) the route instead takes the success path:
it answers 200 and passes the upstream items through. -/
theorem c10_places_cex :
    get_places "LON" ⟨304, ["p1"]⟩ = ⟨1, some "LON", 200, ["p1"]⟩
    ∧ (get_places "LON" ⟨304, ["p1"]⟩).status ≠ 304
    ∧ (get_places "LON" ⟨304, ["p1"]⟩).items ≠ [] :=
  ⟨by decide, by decide, by decide⟩

/-- Claim C10 (amended): the `iata` parameter is trimmed and uppercased
before the 3-character check and before being forwarded; when it has length
3, an upstream HTTP-error status (4xx/5xx, i.e. `not resp.ok`) is answered
with that status and an items-empty body, while any other upstream status
(including 3xx) takes the success path: status 200 with the upstream
items. -/
theorem c10_places_amended (raw : String) (up : PlacesResp)
    (h3 : (pyUpper (pyStripWS raw)).length = 3) :
    (httpError up.status = true →
      get_places raw up = ⟨1, some (pyUpper (pyStripWS raw)), up.status, []⟩)
    ∧ (httpError up.status = false →
      get_places raw up = ⟨1, some (pyUpper (pyStripWS raw)), 200, up.items⟩) := by
  constructor
  · intro h
    simp [get_places, h3, h]
  · intro h
    simp [get_places, h3, h]

/-- Claim C10 witness: the amended theorem applied to the raw query
`" lon "` with an upstream 404 — the processed code `LON` is forwarded and
the 404 is relayed with an items-empty body. -/
theorem c10_places_witness :
    get_places " lon " ⟨404, ["x"]⟩ = ⟨1, some "LON", 404, []⟩ := by
  have h := (c10_places_amended " lon " ⟨404, ["x"]⟩ (by decide)).1 (by decide)
  exact h.trans (by decide)

end JunctionNova
